import Mathlib

/-!
Verification of selected properties of the personal expense tracker backend
(`src/backend/src`): the JWT token codec and password hashing (`auth.rs`),
the error taxonomy (`error.rs`), and the user / category / expense handlers
(`handlers/*.rs`).

Shallow embedding conventions:
- UUIDs are modelled as natural numbers; `Uuid::to_string` is decimal `Nat.repr`.
- Timestamps (`Utc::now().timestamp()`, `NaiveDate`) are integers (unix seconds
  resp. day numbers).
- The HMAC-SHA256 primitive of the `jsonwebtoken` crate and the Argon2id digest
  of the `argon2` crate are external libraries, not part of this repository;
  they are taken as explicit function parameters (`mac`, `digest`), so theorems
  can state exactly which collision-freedom facts they rely on.
- Database tables are lists of rows; the SQL issued by the handlers is
  translated query by query into list operations (`EXISTS` becomes `List.any`,
  `fetch_optional` becomes `List.find?`, `UPDATE ... WHERE` becomes `List.map`
  guarded by the `WHERE` predicate, `DELETE ... WHERE` becomes `List.filter`).
- `rust_decimal::Decimal` amounts are modelled as integers; no claim exercises
  decimal/float arithmetic.
-/

deriving instance DecidableEq for Except

/-- User identifiers: `uuid::Uuid` modelled as a natural number. -/
abbrev Uuid := Nat

/-- Model of `Uuid::to_string` (`user_id.to_string()` in `Claims::new`). -/
def uuidToString (u : Uuid) : String := Nat.repr u

/-- Model of `Uuid::parse_str` (`auth.rs`, step 4 of the extractor): parses a
decimal digit string back into the identifier, failing on anything else. -/
def parseUuid (s : String) : Option Uuid :=
  if s.data ≠ [] ∧ s.data.all (fun c => c.isDigit) then
    some (s.data.foldl (fun n c => 10 * n + (c.toNat - 48)) 0)
  else none

/-- JWT signing algorithms relevant to the model. `jsonwebtoken`'s
`Header::default()` uses `HS256`; a second constructor keeps the
algorithm-mismatch branch of `decode` non-vacuous. -/
inductive Alg
  | HS256
  | HS384
deriving DecidableEq

/-- JWT claims (`auth.rs` lines 83-92): subject as string, expiry as unix
seconds. -/
structure Claims where
  sub : String
  exp : Int
deriving DecidableEq

/-- A structurally well-formed JWT: header algorithm, payload claims, and the
signature over header and payload. Base64url/JSON serialization of the
segments is injective and is elided. -/
structure Token where
  alg : Alg
  payload : Claims
  sig : String
deriving DecidableEq

/-- Error kinds of the `jsonwebtoken` crate reachable in this model. -/
inductive JwtError
  | InvalidSignature
  | ExpiredSignature
  | InvalidAlgorithm
  | Malformed
deriving DecidableEq

/-- Model of `Claims::new` (`auth.rs` lines 111-122): the expiry is the current
time plus `expiration_hours` hours (`Duration::hours`, 3600 seconds each). -/
def claimsNew (user_id : Uuid) (expiration_hours now : Int) : Claims :=
  { sub := uuidToString user_id, exp := now + 3600 * expiration_hours }

/-- Model of `create_jwt` (`auth.rs` lines 259-271): encode the claims with
`Header::default()` (HS256) and sign with HMAC-SHA256 under `secret`. The MAC
primitive is the parameter `mac : secret → algorithm → claims → signature`. -/
def create_jwt (mac : String → Alg → Claims → String) (user_id : Uuid)
    (secret : String) (expiration_hours now : Int) : Token :=
  let claims := claimsNew user_id expiration_hours now
  { alg := Alg.HS256, payload := claims, sig := mac secret Alg.HS256 claims }

/-- Model of `decode_jwt` (`auth.rs` lines 300-308), i.e. `jsonwebtoken`'s
`decode` with `Validation::default()`: the expected algorithm set is `[HS256]`,
`validate_exp` is on, and the default expiry leeway is 60 seconds, so the
expiry check rejects exactly when `exp < now - 60`. Checks run in the order of
the library: algorithm, then signature, then expiry. -/
def decode_jwt (mac : String → Alg → Claims → String) (tok : Token)
    (secret : String) (now : Int) : Except JwtError Claims :=
  if tok.alg = Alg.HS256 then
    if tok.sig = mac secret tok.alg tok.payload then
      if tok.payload.exp < now - 60 then Except.error JwtError.ExpiredSignature
      else Except.ok tok.payload
    else Except.error JwtError.InvalidSignature
  else Except.error JwtError.InvalidAlgorithm

/-- Application error type (`error.rs` lines 9-37). Variants carrying foreign
errors keep a string detail. -/
inductive AppError
  | Database (detail : String)
  | Authentication (msg : String)
  | Unauthorized
  | NotFound (msg : String)
  | Validation (msg : String)
  | Jwt (e : JwtError)
  | PasswordHash
deriving DecidableEq

/-- Model of `AppError::into_response` (`error.rs` lines 39-77): HTTP status
code and client-visible message. -/
def AppError.into_response : AppError → Nat × String
  | AppError.Database _ => (500, "Database error occurred")
  | AppError.Authentication m => (401, m)
  | AppError.Unauthorized => (401, "Unauthorized")
  | AppError.NotFound m => (404, m)
  | AppError.Validation m => (400, m)
  | AppError.Jwt _ => (401, "Invalid token")
  | AppError.PasswordHash => (500, "Authentication processing error")

/-- Stored password hashes, modelled algebraically: either a well-formed PHC
string (whose parse recovers the salt and digest — the PHC encoding of the
`argon2` crate is injective and invertible) or a string that is not a valid
PHC encoding. -/
inductive HashString
  | phc (salt digest : String)
  | notPhc (raw : String)
deriving DecidableEq

/-- Model of `hash_password` (`auth.rs` lines 161-174): a fresh random salt
(passed explicitly as the nondeterministic input `salt`) and the Argon2id
digest of password and salt, emitted in PHC format. The digest primitive is
the parameter `digest : password → salt → digest`. -/
def hash_password (digest : String → String → String) (password salt : String) :
    HashString :=
  HashString.phc salt (digest password salt)

/-- Model of `verify_password` (`auth.rs` lines 208-217): parse the stored PHC
string (failure maps to `AppError::PasswordHash`), then recompute the digest
and compare (mismatch maps to `AppError::Authentication "Invalid
credentials"`). -/
def verify_password (digest : String → String → String) (password : String)
    (stored : HashString) : Except AppError Unit :=
  match stored with
  | HashString.notPhc _ => Except.error AppError.PasswordHash
  | HashString.phc salt dg =>
    if digest password salt = dg then Except.ok ()
    else Except.error (AppError.Authentication "Invalid credentials")

/-- Model of `AuthUser::from_request_parts` (`auth.rs` lines 392-435) as a pure
function of the extracted bearer token (`none` covers a missing or non-bearer
authorization header), the `JWT_SECRET` environment variable, and the clock.
Returns the authenticated user id or an HTTP status/message rejection. -/
def from_request_parts (mac : String → Alg → Claims → String)
    (bearer : Option Token) (secretEnv : Option String) (now : Int) :
    Except (Nat × String) Uuid :=
  match bearer with
  | none => Except.error (401, "Missing authorization header")
  | some tok =>
    match secretEnv with
    | none => Except.error (500, "JWT secret not configured")
    | some secret =>
      match decode_jwt mac tok secret now with
      | Except.error _ => Except.error (401, "Invalid or expired token")
      | Except.ok claims =>
        match parseUuid claims.sub with
        | none => Except.error (401, "Invalid user ID in token")
        | some uid => Except.ok uid

/-- Observable outcome of the Auth Gate: a rejection status or an
authenticated subject. -/
inductive GateOutcome
  | rejected (status : Nat)
  | authenticated (uid : Uuid)
deriving DecidableEq

/-- Forgets the rejection message, keeping the observable status/subject. -/
def gateResult : Except (Nat × String) Uuid → GateOutcome
  | Except.error (s, _) => GateOutcome.rejected s
  | Except.ok u => GateOutcome.authenticated u

/-- Modelled from the spec: the Auth Gate state machine of spec section 4.3,
checks in the stated fixed order — no bearer header rejects with 401, missing
signing secret rejects with 500, any token-decode failure rejects with 401, an
unparseable subject rejects with 401, otherwise the request is authenticated
with the parsed subject. -/
def authGateSpec (mac : String → Alg → Claims → String)
    (bearer : Option Token) (secretEnv : Option String) (now : Int) :
    GateOutcome :=
  match bearer with
  | none => GateOutcome.rejected 401
  | some tok =>
    match secretEnv with
    | none => GateOutcome.rejected 500
    | some secret =>
      match decode_jwt mac tok secret now with
      | Except.error _ => GateOutcome.rejected 401
      | Except.ok claims =>
        match parseUuid claims.sub with
        | none => GateOutcome.rejected 401
        | some uid => GateOutcome.authenticated uid

/-- Concrete MAC instance for counterexamples: signature determined by secret
and subject. -/
def mac0 : String → Alg → Claims → String := fun s _ c => s ++ "." ++ c.sub

/-- Concrete digest instance for counterexamples: digest determined by
password and salt, collision-free. -/
def dig0 : String → String → String := fun p s => p ++ "/" ++ s

/-- User row (`models.rs` lines 51-65). -/
structure User where
  id : Uuid
  email : String
  password_hash : HashString
  full_name : String
  created_at : Int
  updated_at : Int
deriving DecidableEq

/-- Registration payload (`models.rs` lines 85-99). -/
structure CreateUser where
  email : String
  password : String
  full_name : String
deriving DecidableEq

/-- Login payload (`models.rs` lines 113-121). -/
structure LoginRequest where
  email : String
  password : String
deriving DecidableEq

/-- Client-facing user object (`models.rs` lines 154-164); by construction it
has no password-hash field. -/
structure UserResponse where
  id : Uuid
  email : String
  full_name : String
  created_at : Int
deriving DecidableEq

/-- Model of `impl From<User> for UserResponse` (`models.rs` lines 170-179). -/
def UserResponse.ofUser (u : User) : UserResponse :=
  { id := u.id, email := u.email, full_name := u.full_name,
    created_at := u.created_at }

/-- Authentication response (`models.rs` lines 140-146). -/
structure AuthResponse where
  token : Token
  user : UserResponse
deriving DecidableEq

/-- Category row (`models.rs` lines 202-216). -/
structure Category where
  id : Uuid
  user_id : Uuid
  name : String
  color : Option String
  icon : Option String
  created_at : Int
deriving DecidableEq

/-- Category creation payload (`models.rs` lines 228-237). -/
structure CreateCategory where
  name : String
  color : Option String
  icon : Option String
deriving DecidableEq

/-- Category update payload (`models.rs` lines 250-259): all fields
optional. -/
structure UpdateCategory where
  name : Option String
  color : Option String
  icon : Option String
deriving DecidableEq

/-- Expense row (`models.rs` lines 283-301); the decimal amount is modelled as
an integer, the date as a day number. -/
structure Expense where
  id : Uuid
  user_id : Uuid
  category_id : Uuid
  amount : Int
  description : String
  expense_date : Int
  created_at : Int
  updated_at : Int
deriving DecidableEq

/-- Expense joined with its category (`models.rs` lines 320-344). -/
structure ExpenseWithCategory where
  id : Uuid
  user_id : Uuid
  category_id : Uuid
  category_name : String
  category_color : Option String
  category_icon : Option String
  amount : Int
  description : String
  expense_date : Int
  created_at : Int
  updated_at : Int
deriving DecidableEq

/-- Expense update payload (`models.rs` lines 386-400): all fields
optional. -/
structure UpdateExpense where
  category_id : Option Uuid
  amount : Option Int
  description : Option String
  expense_date : Option Int
deriving DecidableEq

/-- The relational store: one list per table. -/
structure Store where
  users : List User
  categories : List Category
  expenses : List Expense
deriving DecidableEq

/-- Process configuration (`JWT_SECRET`, `JWT_EXPIRATION_HOURS`). -/
structure Config where
  jwt_secret : String
  jwt_expiration_hours : Int
deriving DecidableEq

/-- Modelled from the spec: the email-format check of the external `validator`
crate (`#[validate(email)]`), abstracted to the presence of an `@`. -/
def isEmail (s : String) : Bool := s.data.contains '@'

/-- Model of `CreateUser::validate` (`models.rs` lines 85-99): email format,
password of at least 8 characters, non-empty full name. -/
def validateCreateUser (p : CreateUser) : Bool :=
  isEmail p.email && decide (8 ≤ p.password.length) &&
    decide (1 ≤ p.full_name.length)

/-- Model of `LoginRequest::validate` (`models.rs` lines 113-121): only the
email format is checked. -/
def validateLogin (p : LoginRequest) : Bool := isEmail p.email

/-- Model of `CreateCategory::validate` (`models.rs` lines 228-237): name of
1 to 100 characters. -/
def validateCreateCategory (p : CreateCategory) : Bool :=
  decide (1 ≤ p.name.length) && decide (p.name.length ≤ 100)

/-- Model of `UpdateCategory::validate` (`models.rs` lines 250-259): the name
length is checked only when a name is provided. -/
def validateUpdateCategory (p : UpdateCategory) : Bool :=
  match p.name with
  | some n => decide (1 ≤ n.length) && decide (n.length ≤ 100)
  | none => true

/-- Model of `UpdateExpense::validate` (`models.rs` lines 386-400): the
positive-amount range check applies only when an amount is provided. -/
def validateUpdateExpense (p : UpdateExpense) : Bool :=
  match p.amount with
  | some a => decide (0 < a)
  | none => true

/-- Model of `register` (`handlers/users.rs` lines 11-55): validate, reject an
already-registered email, hash the password, insert the user, mint a token,
and answer 201 with the token and the sanitized user. Fresh id, salt and
clock are explicit nondeterminism inputs. -/
def register (digest : String → String → String)
    (mac : String → Alg → Claims → String) (s : Store) (cfg : Config)
    (p : CreateUser) (salt : String) (newId : Uuid) (now : Int) :
    Store × Except AppError (Nat × AuthResponse) :=
  if !(validateCreateUser p) then
    (s, Except.error (AppError.Validation "Invalid email address"))
  else if s.users.any (fun u => u.email == p.email) then
    (s, Except.error (AppError.Validation "Email already registered"))
  else
    let user : User :=
      { id := newId, email := p.email,
        password_hash := hash_password digest p.password salt,
        full_name := p.full_name, created_at := now, updated_at := now }
    let token := create_jwt mac user.id cfg.jwt_secret cfg.jwt_expiration_hours now
    ({ s with users := s.users ++ [user] },
     Except.ok (201, { token := token, user := UserResponse.ofUser user }))

/-- Model of `login` (`handlers/users.rs` lines 57-83): validate, look the user
up by email (absence maps to `Authentication "Invalid credentials"`), verify
the password (its error propagates unchanged), then mint a token. -/
def login (digest : String → String → String)
    (mac : String → Alg → Claims → String) (s : Store) (cfg : Config)
    (p : LoginRequest) (now : Int) : Except AppError AuthResponse :=
  if !(validateLogin p) then
    Except.error (AppError.Validation "Invalid email address")
  else
    match s.users.find? (fun u => u.email == p.email) with
    | none => Except.error (AppError.Authentication "Invalid credentials")
    | some u =>
      match verify_password digest p.password u.password_hash with
      | Except.error e => Except.error e
      | Except.ok _ =>
        let token :=
          create_jwt mac u.id cfg.jwt_secret cfg.jwt_expiration_hours now
        Except.ok { token := token, user := UserResponse.ofUser u }

/-- Model of `create_category` (`handlers/categories.rs` lines 16-52):
validate, reject a duplicate name for the same user (`EXISTS` pre-check),
otherwise insert and answer 201. -/
def create_category (s : Store) (uid : Uuid) (p : CreateCategory)
    (newId : Uuid) (now : Int) : Store × Except AppError (Nat × Category) :=
  if !(validateCreateCategory p) then
    (s, Except.error (AppError.Validation "Category name must be 1-100 characters"))
  else if s.categories.any (fun c => c.user_id == uid && c.name == p.name) then
    (s, Except.error (AppError.Validation "Category name already exists"))
  else
    let cat : Category :=
      { id := newId, user_id := uid, name := p.name, color := p.color,
        icon := p.icon, created_at := now }
    ({ s with categories := s.categories ++ [cat] }, Except.ok (201, cat))

/-- Applies the `UPDATE categories SET ...` built by `update_category`
(`handlers/categories.rs` lines 122-144) to one row: each provided field is
assigned, the rest keep their values. -/
def applyUpdateCategory (p : UpdateCategory) (c : Category) : Category :=
  { c with
    name := p.name.getD c.name,
    color := match p.color with | some v => some v | none => c.color,
    icon := match p.icon with | some v => some v | none => c.icon }

/-- Model of `update_category` (`handlers/categories.rs` lines 85-154):
validate, 404 unless the row exists for this user, reject a rename to a name
already used by another category of the same user, reject an empty payload,
otherwise update the row and re-read it by id. -/
def update_category (s : Store) (uid id : Uuid) (p : UpdateCategory) :
    Store × Except AppError Category :=
  if !(validateUpdateCategory p) then
    (s, Except.error (AppError.Validation "Category name must be 1-100 characters"))
  else if !(s.categories.any (fun c => c.id == id && c.user_id == uid)) then
    (s, Except.error (AppError.NotFound "Category not found"))
  else
    let dup :=
      match p.name with
      | some n =>
        s.categories.any (fun c => c.user_id == uid && c.name == n && !(c.id == id))
      | none => false
    if dup then
      (s, Except.error (AppError.Validation "Category name already exists"))
    else if p.name.isNone && p.color.isNone && p.icon.isNone then
      (s, Except.error (AppError.Validation "No fields to update"))
    else
      let s2 : Store :=
        { s with categories := s.categories.map (fun c =>
            if c.id == id && c.user_id == uid then applyUpdateCategory p c else c) }
      match s2.categories.find? (fun c => c.id == id) with
      | none => (s2, Except.error (AppError.Database "row not found"))
      | some c => (s2, Except.ok c)

/-- Model of `delete_category` (`handlers/categories.rs` lines 156-185): first
a `Validation` rejection when any expense row references the category — this
`EXISTS` query is not scoped to the caller — then a user-scoped `DELETE`,
answering 404 when no row was affected and 204 otherwise. -/
def delete_category (s : Store) (uid id : Uuid) :
    Store × Except AppError Nat :=
  if s.expenses.any (fun e => e.category_id == id) then
    (s, Except.error (AppError.Validation "Cannot delete category with existing expenses"))
  else
    let remaining := s.categories.filter (fun c => !(c.id == id && c.user_id == uid))
    if remaining.length == s.categories.length then
      (s, Except.error (AppError.NotFound "Category not found"))
    else
      ({ s with categories := remaining }, Except.ok 204)

/-- Builds the joined row returned by the expense queries
(`handlers/expenses.rs`). -/
def mkExpenseWithCategory (e : Expense) (c : Category) : ExpenseWithCategory :=
  { id := e.id, user_id := e.user_id, category_id := e.category_id,
    category_name := c.name, category_color := c.color,
    category_icon := c.icon, amount := e.amount,
    description := e.description, expense_date := e.expense_date,
    created_at := e.created_at, updated_at := e.updated_at }

/-- Model of `get_expense` (`handlers/expenses.rs` lines 134-165): select the
expense scoped by id and caller, join its category, 404 when no row
matches. -/
def get_expense (s : Store) (uid id : Uuid) :
    Except AppError ExpenseWithCategory :=
  match s.expenses.find? (fun e => e.id == id && e.user_id == uid) with
  | none => Except.error (AppError.NotFound "Expense not found")
  | some e =>
    match s.categories.find? (fun c => c.id == e.category_id) with
    | none => Except.error (AppError.NotFound "Expense not found")
    | some c => Except.ok (mkExpenseWithCategory e c)

/-- Applies the `UPDATE expenses SET updated_at = NOW(), ...` built by
`update_expense` (`handlers/expenses.rs` lines 201-232) to one row:
`updated_at` is always set, each provided field is assigned, the rest keep
their values. -/
def applyUpdateExpense (p : UpdateExpense) (now : Int) (e : Expense) : Expense :=
  { e with
    updated_at := now,
    category_id := p.category_id.getD e.category_id,
    amount := p.amount.getD e.amount,
    description := p.description.getD e.description,
    expense_date := p.expense_date.getD e.expense_date }

/-- Model of `update_expense` (`handlers/expenses.rs` lines 167-258): validate,
404 unless the expense exists for this user, 404 when a provided target
category does not exist for this user, then update the row (always touching
`updated_at`, even for an empty payload) and re-read it by id alone, joined
with its category. -/
def update_expense (s : Store) (uid id : Uuid) (p : UpdateExpense) (now : Int) :
    Store × Except AppError ExpenseWithCategory :=
  if !(validateUpdateExpense p) then
    (s, Except.error (AppError.Validation "Invalid amount"))
  else if !(s.expenses.any (fun e => e.id == id && e.user_id == uid)) then
    (s, Except.error (AppError.NotFound "Expense not found"))
  else
    let catOk :=
      match p.category_id with
      | some cid => s.categories.any (fun c => c.id == cid && c.user_id == uid)
      | none => true
    if !catOk then (s, Except.error (AppError.NotFound "Category not found"))
    else
      let s2 : Store :=
        { s with expenses := s.expenses.map (fun e =>
            if e.id == id && e.user_id == uid then applyUpdateExpense p now e else e) }
      match s2.expenses.find? (fun e => e.id == id) with
      | none => (s2, Except.error (AppError.Database "row not found"))
      | some e =>
        match s2.categories.find? (fun c => c.id == e.category_id) with
        | none => (s2, Except.error (AppError.Database "row not found"))
        | some c => (s2, Except.ok (mkExpenseWithCategory e c))

/-- Fixture: a category of user 2 that has an expense referencing it. -/
def catA : Category :=
  { id := 1, user_id := 2, name := "Food", color := none, icon := none,
    created_at := 0 }

/-- Fixture: a category of user 2 with no referencing expenses. -/
def catB : Category :=
  { id := 3, user_id := 2, name := "Travel", color := none, icon := none,
    created_at := 0 }

/-- Fixture: an expense of user 2 in category 1, itself carrying row id 3. -/
def expA : Expense :=
  { id := 3, user_id := 2, category_id := 1, amount := 5, description := "d",
    expense_date := 0, created_at := 0, updated_at := 0 }

/-- Fixture store owned entirely by user 2, probed by caller 1. -/
def storeOther : Store := { users := [], categories := [catA, catB], expenses := [expA] }

/-- Fixture: user 1 already has a category named "Food". -/
def catFood1 : Category :=
  { id := 1, user_id := 1, name := "Food", color := none, icon := none,
    created_at := 0 }

/-- Fixture store for the category-uniqueness theorem. -/
def storeCats : Store := { users := [], categories := [catFood1], expenses := [] }

/-- Fixture: a registered user with a well-formed stored password hash. -/
def userB : User :=
  { id := 2, email := "b@x", password_hash := HashString.phc "s" (dig0 "real" "s"),
    full_name := "B", created_at := 0, updated_at := 0 }

/-- Fixture store for the login-indistinguishability theorem. -/
def storeUsers : Store := { users := [userB], categories := [], expenses := [] }

/-- Fixture: an expense of user 1 in category 2. -/
def expTen : Expense :=
  { id := 1, user_id := 1, category_id := 2, amount := 5, description := "d",
    expense_date := 0, created_at := 0, updated_at := 0 }

/-- Fixture: the category joined by `expTen`. -/
def catTen : Category :=
  { id := 2, user_id := 1, name := "Food", color := none, icon := none,
    created_at := 0 }

/-- Fixture store for the empty-payload update theorem. -/
def storeExp : Store := { users := [], categories := [catTen], expenses := [expTen] }

/-- The expense-update payload in which every field is absent. -/
def noUpdateExpense : UpdateExpense :=
  { category_id := none, amount := none, description := none, expense_date := none }

/-- The category-update payload in which every field is absent. -/
def noUpdateCategory : UpdateCategory :=
  { name := none, color := none, icon := none }

/-- C1 (amended): for every subject `s`, secret `k` and validity `h`, decoding
`create_jwt(s, k, h)` with the same secret `k` at time `t` succeeds with
subject `uuidToString s` whenever `t ≤ expiresAt + 60` — in particular
whenever `t` is before `expiresAt = now + 3600·h` — and fails with
`ExpiredSignature` exactly when `expiresAt < t - 60`, i.e. only once `t`
exceeds `expiresAt` by more than the 60-second default leeway of
`jsonwebtoken`'s `Validation::default()`. -/
theorem decode_create_jwt_same_secret (mac : String → Alg → Claims → String)
    (uid : Uuid) (secret : String) (h now t : Int) :
    decode_jwt mac (create_jwt mac uid secret h now) secret t =
      (if now + 3600 * h < t - 60 then Except.error JwtError.ExpiredSignature
       else Except.ok { sub := uuidToString uid, exp := now + 3600 * h }) := by
  simp [decode_jwt, create_jwt, claimsNew]

/-- C1 counterexample: a token minted at time 0 with 1-hour validity has
`expiresAt = 3600`; decoding at `now = 3600` (so `now ≥ expiresAt`) still
succeeds rather than failing with `Expired`, because `Validation::default()`
allows a 60-second leeway. -/
theorem decode_at_expiry_not_expired :
    decode_jwt mac0 (create_jwt mac0 1 "k" 1 0) "k" 3600 =
      Except.ok { sub := uuidToString 1, exp := 3600 } ∧
    decode_jwt mac0 (create_jwt mac0 1 "k" 1 0) "k" 3600 ≠
      Except.error JwtError.ExpiredSignature := by
  constructor
  · decide
  · decide

/-- C2: for every request, the outcome of the `AuthUser` extractor is exactly
the outcome of the spec's Auth Gate state machine: first failing check wins,
in the fixed order — missing bearer header 401, unconfigured secret 500,
token-decode failure 401, unparseable subject 401, otherwise authenticated
with the parsed user id. -/
theorem auth_gate_refines_spec (mac : String → Alg → Claims → String)
    (bearer : Option Token) (secretEnv : Option String) (now : Int) :
    gateResult (from_request_parts mac bearer secretEnv now) =
      authGateSpec mac bearer secretEnv now := by
  cases bearer with
  | none => rfl
  | some tok =>
    cases secretEnv with
    | none => rfl
    | some secret =>
      simp only [from_request_parts, authGateSpec]
      cases hdec : decode_jwt mac tok secret now with
      | error e => simp [gateResult]
      | ok claims =>
        cases hpu : parseUuid claims.sub with
        | none => simp [gateResult, hpu]
        | some u => simp [gateResult, hpu]

/-- C3: the code makes malformed stored hashes and wrong passwords
distinguishable, contrary to the claim and to `verify_password`'s own doc
comment — a malformed stored hash yields `AppError::PasswordHash` (rendered
500 "Authentication processing error") while a wrong password against a
well-formed hash yields `AppError::Authentication "Invalid credentials"`
(rendered 401), and the two responses differ. -/
theorem verify_password_outcomes_distinguishable :
    verify_password dig0 "pw" (HashString.notPhc "garbage") =
      Except.error AppError.PasswordHash ∧
    verify_password dig0 "pw" (HashString.phc "s" (dig0 "other" "s")) =
      Except.error (AppError.Authentication "Invalid credentials") ∧
    AppError.into_response AppError.PasswordHash ≠
      AppError.into_response (AppError.Authentication "Invalid credentials") := by
  refine ⟨rfl, by decide, by decide⟩

/-- C5: for every password `p`, verifying `p` against `hash_password p`
succeeds; and for distinct passwords `p1 ≠ p2`, provided the Argon2 digest is
collision-free at the chosen salt, verifying `p2` against `hash_password p1`
fails with the generic invalid-credentials error. -/
theorem verify_hash_roundtrip (digest : String → String → String)
    (p p1 p2 salt : String)
    (hinj : ∀ a b : String, digest a salt = digest b salt → a = b)
    (hne : p1 ≠ p2) :
    verify_password digest p (hash_password digest p salt) = Except.ok () ∧
    verify_password digest p2 (hash_password digest p1 salt) =
      Except.error (AppError.Authentication "Invalid credentials") := by
  constructor
  · simp [verify_password, hash_password]
  · have hd : ¬ digest p2 salt = digest p1 salt :=
      fun hdig => hne ((hinj p2 p1 hdig).symm)
    simp [verify_password, hash_password, hd]

/-- C5 witness: instantiated with the identity-in-password digest and the
distinct passwords "x" and "y". -/
theorem verify_hash_roundtrip_witness :
    verify_password (fun a _ => a) "x" (hash_password (fun a _ => a) "x" "s") =
      Except.ok () ∧
    verify_password (fun a _ => a) "y" (hash_password (fun a _ => a) "x" "s") =
      Except.error (AppError.Authentication "Invalid credentials") :=
  verify_hash_roundtrip (fun a _ => a) "x" "x" "y" "s" (fun a b hab => hab)
    (by decide)

/-- C6: decoding a token minted under secret `k2` with a different secret
`k1` fails with `InvalidSignature` (at any time `t`), provided the MAC does
not collide across distinct keys on the signed content. -/
theorem decode_wrong_secret_invalid_signature
    (mac : String → Alg → Claims → String) (uid : Uuid) (k1 k2 : String)
    (h now t : Int) (hk : k1 ≠ k2)
    (hmac : ∀ (a b : String) (c : Claims),
        mac a Alg.HS256 c = mac b Alg.HS256 c → a = b) :
    decode_jwt mac (create_jwt mac uid k2 h now) k1 t =
      Except.error JwtError.InvalidSignature := by
  have hne : ¬ mac k2 Alg.HS256 (claimsNew uid h now) =
      mac k1 Alg.HS256 (claimsNew uid h now) :=
    fun heq => hk ((hmac k2 k1 (claimsNew uid h now) heq).symm)
  simp [decode_jwt, create_jwt, hne]

/-- C6 witness: the key-injective MAC returning its key, with the distinct
secrets "a" and "b". -/
theorem decode_wrong_secret_invalid_signature_witness :
    decode_jwt (fun s _ _ => s) (create_jwt (fun s _ _ => s) 1 "b" 1 0) "a" 0 =
      Except.error JwtError.InvalidSignature :=
  decode_wrong_secret_invalid_signature (fun s _ _ => s) 1 "a" "b" 1 0 0
    (by decide) (fun a b c hab => hab)

/-- C4 counterexample: caller 1 asks to delete category 1, which exists but
belongs to user 2 and is referenced by an expense; the handler answers with
the `Validation` error "Cannot delete category with existing expenses"
(rendered 400), not `NotFound`, confirming the foreign row's existence. -/
theorem delete_category_leaks_existence :
    delete_category storeOther 1 1 =
      (storeOther,
       Except.error (AppError.Validation "Cannot delete category with existing expenses")) ∧
    AppError.into_response
        (AppError.Validation "Cannot delete category with existing expenses") =
      (400, "Cannot delete category with existing expenses") := by
  constructor
  · decide
  · rfl

/-- C4 (amended): when every row carrying the targeted id belongs to another
subject, `get_expense` answers `NotFound`, and `delete_category` answers
`NotFound` provided no expense row references the category; but whenever any
expense references the targeted category id — whoever owns it —
`delete_category` instead answers the `Validation` error (400), an outcome
distinct from true absence. -/
theorem not_owned_rows_not_found (s : Store) (uid id : Uuid)
    (hexp : ∀ x ∈ s.expenses, x.id = id → ¬ x.user_id = uid)
    (hcat : ∀ c ∈ s.categories, c.id = id → ¬ c.user_id = uid)
    (hnoref : ∀ x ∈ s.expenses, ¬ x.category_id = id) :
    get_expense s uid id = Except.error (AppError.NotFound "Expense not found") ∧
    delete_category s uid id =
      (s, Except.error (AppError.NotFound "Category not found")) ∧
    ∀ s2 : Store, s2.expenses.any (fun x => x.category_id == id) = true →
      delete_category s2 uid id =
        (s2, Except.error (AppError.Validation "Cannot delete category with existing expenses")) := by
  refine ⟨?_, ?_, ?_⟩
  · have hfind : s.expenses.find? (fun e => e.id == id && e.user_id == uid) = none := by
      rw [List.find?_eq_none]
      intro x hx
      simp only [Bool.and_eq_true, beq_iff_eq, not_and]
      exact hexp x hx
    simp [get_expense, hfind]
  · have hany : s.expenses.any (fun e => e.category_id == id) = false := by
      rw [List.any_eq_false]
      intro x hx
      simp only [beq_iff_eq]
      exact hnoref x hx
    have hfilter : s.categories.filter (fun c => !(c.id == id && c.user_id == uid)) =
        s.categories := by
      rw [List.filter_eq_self]
      intro c hc
      simp only [Bool.not_eq_true', Bool.and_eq_false_iff, beq_eq_false_iff_ne, ne_eq]
      by_cases h1 : c.id = id
      · exact Or.inr (hcat c hc h1)
      · exact Or.inl h1
    simp [delete_category, hany, hfilter]
    exact hcat
  · intro s2 h2
    simp [delete_category, h2]

/-- C4 witness for the amended theorem: in `storeOther`, row id 3 names an
expense and a category both owned by user 2 and unreferenced, so caller 1
gets `NotFound` from `get_expense`. -/
theorem not_owned_rows_not_found_witness :
    get_expense storeOther 1 3 = Except.error (AppError.NotFound "Expense not found") :=
  (not_owned_rows_not_found storeOther 1 3 (by decide) (by decide) (by decide)).1

/-- C7: creating a category whose name an existing category of the same user
already carries fails with the `Validation` error and leaves the store
unchanged; the same name for a different user (who does not carry it) is
inserted and answered 201; and `update_category` rejects a rename to a name
already used by another category of the same user, also leaving the store
unchanged. -/
theorem category_name_unique_per_user (s : Store) (uid uid2 : Uuid)
    (p : CreateCategory) (nid : Uuid) (now : Int) (nid2 : Uuid) (now2 : Int)
    (hv : validateCreateCategory p = true)
    (hdup : s.categories.any (fun c => c.user_id == uid && c.name == p.name) = true)
    (hfree : s.categories.any (fun c => c.user_id == uid2 && c.name == p.name) = false) :
    create_category s uid p nid now =
      (s, Except.error (AppError.Validation "Category name already exists")) ∧
    create_category s uid2 p nid2 now2 =
      ({ s with categories := s.categories ++
          [{ id := nid2, user_id := uid2, name := p.name, color := p.color,
             icon := p.icon, created_at := now2 }] },
       Except.ok (201, { id := nid2, user_id := uid2, name := p.name,
                         color := p.color, icon := p.icon, created_at := now2 })) ∧
    ∀ (id2 : Uuid) (q : UpdateCategory),
      validateUpdateCategory q = true →
      s.categories.any (fun c => c.id == id2 && c.user_id == uid) = true →
      q.name = some p.name →
      s.categories.any (fun c => c.user_id == uid && c.name == p.name && !(c.id == id2)) = true →
      update_category s uid id2 q =
        (s, Except.error (AppError.Validation "Category name already exists")) := by
  refine ⟨?_, ?_, ?_⟩
  · simp [create_category, hv, hdup]
  · simp [create_category, hv, hfree]
  · intro id2 q hq hex hqname hdup2
    simp [update_category, hq, hex, hqname, hdup2]

/-- C7 witness: user 1 already has "Food" (`storeCats`), creating it again for
user 1 fails with the duplicate-name validation error and leaves the store
unchanged. -/
theorem category_name_unique_per_user_witness :
    create_category storeCats 1 { name := "Food", color := none, icon := none } 5 0 =
      (storeCats, Except.error (AppError.Validation "Category name already exists")) :=
  (category_name_unique_per_user storeCats 1 2
    { name := "Food", color := none, icon := none } 5 0 6 0
    (by decide) (by decide) (by decide)).1

/-- C8: a login with an email that has no account and a login with a wrong
password for an existing account (whose stored hash is well-formed and whose
digest does not match) produce the same observable outcome: the
`Authentication "Invalid credentials"` error, rendered 401 with the same
generic message. -/
theorem login_wrong_password_indistinguishable
    (digest : String → String → String) (mac : String → Alg → Claims → String)
    (s : Store) (cfg : Config) (e1 e2 pw preal salt : String) (u : User)
    (now : Int)
    (he1 : isEmail e1 = true) (he2 : isEmail e2 = true)
    (h1 : s.users.find? (fun v => v.email == e1) = none)
    (h2 : s.users.find? (fun v => v.email == e2) = some u)
    (hhash : u.password_hash = HashString.phc salt (digest preal salt))
    (hwrong : ¬ digest pw salt = digest preal salt) :
    login digest mac s cfg { email := e1, password := pw } now =
      Except.error (AppError.Authentication "Invalid credentials") ∧
    login digest mac s cfg { email := e2, password := pw } now =
      Except.error (AppError.Authentication "Invalid credentials") := by
  constructor
  · simp [login, validateLogin, he1, h1]
  · simp [login, validateLogin, he2, h2, verify_password, hhash, hwrong]

/-- C8 witness: in `storeUsers`, "a@x" has no account and "b@x" is `userB`
with a well-formed hash of "real"; logging in with password "pw" rejects
identically in both cases. -/
theorem login_wrong_password_indistinguishable_witness :
    login dig0 mac0 storeUsers { jwt_secret := "k", jwt_expiration_hours := 24 }
      { email := "a@x", password := "pw" } 0 =
      Except.error (AppError.Authentication "Invalid credentials") ∧
    login dig0 mac0 storeUsers { jwt_secret := "k", jwt_expiration_hours := 24 }
      { email := "b@x", password := "pw" } 0 =
      Except.error (AppError.Authentication "Invalid credentials") :=
  login_wrong_password_indistinguishable dig0 mac0 storeUsers
    { jwt_secret := "k", jwt_expiration_hours := 24 } "a@x" "b@x" "pw" "real"
    "s" userB 0 (by decide) (by decide) (by decide) (by decide) (by decide)
    (by decide)

/-- C9: for a valid registration payload with an unregistered email,
`register` answers 201 with a freshly minted token and the sanitized user
response; and the `User → UserResponse` conversion is independent of the
stored password hash — it drops that field for every user value. -/
theorem register_sanitizes_and_creates (digest : String → String → String)
    (mac : String → Alg → Claims → String) (s : Store) (cfg : Config)
    (p : CreateUser) (salt : String) (newId : Uuid) (now : Int)
    (hv : validateCreateUser p = true)
    (hne : s.users.any (fun u => u.email == p.email) = false) :
    (register digest mac s cfg p salt newId now).2 =
      Except.ok (201,
        { token := create_jwt mac newId cfg.jwt_secret cfg.jwt_expiration_hours now,
          user := { id := newId, email := p.email, full_name := p.full_name,
                    created_at := now } }) ∧
    ∀ (u : User) (hs : HashString),
      UserResponse.ofUser { u with password_hash := hs } = UserResponse.ofUser u := by
  constructor
  · simp [register, hv, hne, UserResponse.ofUser]
  · intro u hs
    rfl

/-- C9 witness: registering `a@b.com` with password `longenough1` in the
empty store answers 201 with the token and the hash-free user object. -/
theorem register_sanitizes_and_creates_witness :
    (register dig0 mac0 { users := [], categories := [], expenses := [] }
        { jwt_secret := "k", jwt_expiration_hours := 24 }
        { email := "a@b.com", password := "longenough1", full_name := "A B" }
        "s" 7 0).2 =
      Except.ok (201,
        { token := create_jwt mac0 7 "k" 24 0,
          user := { id := 7, email := "a@b.com", full_name := "A B",
                    created_at := 0 } }) :=
  (register_sanitizes_and_creates dig0 mac0
    { users := [], categories := [], expenses := [] }
    { jwt_secret := "k", jwt_expiration_hours := 24 }
    { email := "a@b.com", password := "longenough1", full_name := "A B" }
    "s" 7 0 (by decide) (by decide)).1


/-- C10: updating an expense owned by the caller with the payload in which
`category_id`, `amount`, `description` and `expense_date` are all absent
succeeds — unlike `update_category`, which rejects its all-absent payload
with the "No fields to update" validation error — and rewrites the stored
row to differ only in `updated_at`, leaving every other field and every
other row unchanged. -/
theorem empty_update_expense_frame (s : Store) (uid id : Uuid) (now : Int)
    (e : Expense) (c : Category)
    (hfind : s.expenses.find? (fun x => x.id == id) = some e)
    (hown : e.user_id = uid)
    (hcat : s.categories.find? (fun cc => cc.id == e.category_id) = some c) :
    (update_expense s uid id noUpdateExpense now).2 =
      Except.ok (mkExpenseWithCategory { e with updated_at := now } c) ∧
    (update_expense s uid id noUpdateExpense now).1.expenses =
      s.expenses.map (fun x =>
        if x.id == id && x.user_id == uid then { x with updated_at := now }
        else x) ∧
    ∀ (uid2 id2 : Uuid),
      s.categories.any (fun cc => cc.id == id2 && cc.user_id == uid2) = true →
      update_category s uid2 id2 noUpdateCategory =
        (s, Except.error (AppError.Validation "No fields to update")) := by
  have hid : e.id = id := by
    have h1 := List.find?_some hfind
    simpa using h1
  have hmem : e ∈ s.expenses := List.mem_of_find?_eq_some hfind
  have hany : (s.expenses.any fun x => x.id == id && x.user_id == uid) = true := by
    rw [List.any_eq_true]
    refine ⟨e, hmem, ?_⟩
    simp [hid, hown]
  have hpred : ((fun x : Expense => x.id == id) ∘ (fun x : Expense =>
      if x.id == id && x.user_id == uid then
        applyUpdateExpense noUpdateExpense now x
      else x)) = (fun x : Expense => x.id == id) := by
    funext x
    by_cases hx : (x.id == id && x.user_id == uid) = true
    · simp [Function.comp, hx, applyUpdateExpense]
    · simp [Function.comp, hx]
  have hfind2 : ((s.expenses.map (fun x : Expense =>
      if x.id == id && x.user_id == uid then
        applyUpdateExpense noUpdateExpense now x
      else x)).find? (fun x => x.id == id)) = some { e with updated_at := now } := by
    rw [List.find?_map, hpred, hfind]
    simp [applyUpdateExpense, noUpdateExpense, hid, hown]
  have hmain : update_expense s uid id noUpdateExpense now =
      ({ s with expenses := s.expenses.map (fun x : Expense =>
          if x.id == id && x.user_id == uid then
            applyUpdateExpense noUpdateExpense now x
          else x) },
       Except.ok (mkExpenseWithCategory { e with updated_at := now } c)) := by
    have hv : validateUpdateExpense noUpdateExpense = true := rfl
    have hcid : noUpdateExpense.category_id = none := rfl
    simp only [update_expense, hv, hcid, hany, Bool.not_true, Bool.false_eq_true,
      if_false, ite_false]
    rw [hfind2]
    simp [hcat]
  refine ⟨?_, ?_, ?_⟩
  · rw [hmain]
  · rw [hmain]
    rfl
  · intro uid2 id2 hex
    simp [update_category, validateUpdateCategory, noUpdateCategory, hex]

/-- C10 witness: in `storeExp`, expense 1 belongs to caller 1; the all-absent
payload update succeeds and only `updated_at` moves to the new clock value. -/
theorem empty_update_expense_frame_witness :
    (update_expense storeExp 1 1 noUpdateExpense 7).2 =
      Except.ok (mkExpenseWithCategory { expTen with updated_at := 7 } catTen) :=
  (empty_update_expense_frame storeExp 1 1 7 expTen catTen (by decide)
    (by decide) (by decide)).1
